import Mathlib

/-!
Verification of the workload-automation browser-benchmark workloads
(`wa/workloads/jetstream/__init__.py` and `wa/workloads/speedometer/__init__.py`).

The Python source is shallowly embedded: device-side observations (file
existence checks, `find` output, `grep` output, `top` output) are abstracted
as oracle functions supplied through small environment structures, and each
loop of the source is translated into a computable Lean function.  Loops are
written with an explicit fuel argument; a dedicated constructor (`fuelOut`)
marks fuel exhaustion, and termination theorems show where the fuel provided
can never be exhausted (so the fuel is an encoding device, not a semantic
change).
-/

namespace WorkloadAutomation

/-! ## String containment, modelling the Python `in` operator on `str` -/

/-- Python `needle in hay` on lists of characters: `needle` occurs as a
contiguous substring of `hay` (the empty needle occurs in every string). -/
def strContainsAux (needle : List Char) : List Char → Bool
  | [] => needle.isEmpty
  | c :: cs => needle.isPrefixOf (c :: cs) || strContainsAux needle cs

/-- Python `needle in hay` on `String`. -/
def strContains (needle hay : String) : Bool :=
  strContainsAux needle.data hay.data

/-! ## The Completion Poller: `Jetstream.wait_for_benchmark_to_complete`
(jetstream/__init__.py lines 205-259)

The device is abstracted as an oracle indexed by the iteration number:
`fileExists i` is the result of `self.target.file_exists(local_storage)` on
iteration `i` (line 218); `findFiles i` is the candidate file list produced
by the `find` command if it is run on iteration `i` (lines 226-231);
`grepOutput i f` is the output of `busybox grep <report_end_id> <f>` run on
iteration `i` (lines 239-244). -/

structure PollEnv where
  fileExists : Nat → Bool
  findFiles : Nat → List String
  grepOutput : Nat → String → String

/-- Outcome of the polling loop.  `complete n` is normal return with `n`
executed `time.sleep(sleep_period_s)` calls; `timeout seen flagged n` is the
`WorkloadError` raise at lines 251-257, where `seen` is the value of
`local_storage_seen` (selecting between the two error messages) and
`flagged` is the value of `benchmark_complete` at the moment of the raise;
`fuelOut` marks exhaustion of the fuel encoding (shown unreachable for the
Jetstream poller). -/
inductive PollResult where
  | complete (sleeps : Nat)
  | timeout (seen : Bool) (flagged : Bool) (sleeps : Nat)
  | fuelOut
deriving DecidableEq

/-- Number of sleeps recorded in a result (`0` for `fuelOut`). -/
def PollResult.sleepCount : PollResult → Nat
  | .complete n => n
  | .timeout _ _ n => n
  | .fuelOut => 0

/-- Line 245 of jetstream/__init__.py, the per-file completion test applied
to the grep output:
`if "Binary file \x7b\x7d matches" in output or report_end_id in output`.
Note the literal brace placeholder: the source never calls `.format` on the
first string, so the first disjunct looks for the literal placeholder text
rather than for `Binary file <path> matches`. -/
def scanMatch (reportEndId output : String) : Bool :=
  strContains "Binary file \x7b\x7d matches" output || strContains reportEndId output

/-- The `for ls_file in candidate_files` scan of lines 235-247: the loop
sets `benchmark_complete` iff some candidate file passes `scanMatch` (the
`break` only short-circuits; it does not change the final flag value). -/
def scanCandidates (env : PollEnv) (rid : String) (iter : Nat) (files : List String) : Bool :=
  files.any (fun f => scanMatch rid (env.grepOutput iter f))

/-- Lines 219-231: the candidate list is re-enumerated when
`iterations % (find_period_s // sleep_period_s) == 0 or not local_storage_seen`,
otherwise the previously enumerated list is reused. -/
def refreshCand (env : PollEnv) (sleepP findP iter : Nat) (seen : Bool)
    (cand : List String) : List String :=
  if iter % (findP / sleepP) == 0 || !seen then env.findFiles iter else cand

/-- One-to-one translation of the `while not benchmark_complete` loop (lines
217-259), with state `(iter, seen, cand, sleeps)` corresponding to
(`iterations`, `local_storage_seen`, `candidate_files`, sleeps performed).
Source order within one pass: optional scan (only if the storage location
exists), `iterations += 1`, timeout check and raise, `time.sleep`, then the
loop condition is re-examined.  `sleeps` is incremented exactly where the
source calls `time.sleep(sleep_period_s)` (line 259); in particular the
pass that sets `benchmark_complete` still sleeps before the loop condition
is re-checked, and the timeout raise at lines 251-257 happens before the
sleep and takes precedence over a completion detected on the same pass. -/
def pollGo (env : PollEnv) (rid : String) (sleepP findP T : Nat) :
    Nat → Nat → Bool → List String → Nat → PollResult
  | 0, _, _, _, _ => .fuelOut
  | fuel + 1, iter, seen, cand, sleeps =>
    if env.fileExists iter then
      if T < iter + 1 then
        .timeout true (scanCandidates env rid iter (refreshCand env sleepP findP iter seen cand)) sleeps
      else if scanCandidates env rid iter (refreshCand env sleepP findP iter seen cand) then
        .complete (sleeps + 1)
      else
        pollGo env rid sleepP findP T fuel (iter + 1) true
          (refreshCand env sleepP findP iter seen cand) (sleeps + 1)
    else
      if T < iter + 1 then .timeout seen false sleeps
      else pollGo env rid sleepP findP T fuel (iter + 1) seen cand (sleeps + 1)

/-- Line 251: the iteration bound `(timeout_period_m * 60) // sleep_period_s`. -/
def timeoutIters (sleepP timeoutM : Nat) : Nat := (timeoutM * 60) / sleepP

/-- The polling loop with its initial state (lines 214-216): `iterations = 0`,
`local_storage_seen = False`, no candidate files, no sleeps yet.  The fuel
`timeoutIters + 1` is the a-priori bound on loop passes: each pass
increments `iterations` and the pass reaching `iterations` above the bound
raises, so no execution can need more passes. -/
def pollLoop (env : PollEnv) (rid : String) (sleepP findP timeoutM : Nat) : PollResult :=
  pollGo env rid sleepP findP (timeoutIters sleepP timeoutM)
    (timeoutIters sleepP timeoutM + 1) 0 false [] 0

/-- `Jetstream.wait_for_benchmark_to_complete` with the source constants
`sleep_period_s = 5`, `find_period_s = 30`, `timeout_period_m = 15`
(lines 210-212); the iteration bound is `(15 * 60) / 5 = 180`. -/
def wait_for_benchmark_to_complete (env : PollEnv) (rid : String) : PollResult :=
  pollLoop env rid 5 30 15

/-- Environment in which the local-storage location never exists. -/
def envNeverSeen : PollEnv := ⟨fun _ => false, fun _ => [], fun _ _ => ""⟩

/-- Environment in which the location always exists, `find` always reports
one candidate file, and grep always reports a textual match of the run
identifier `deadbeef`. -/
def envAlwaysMatch : PollEnv := ⟨fun _ => true, fun _ => ["f"], fun _ _ => "deadbeef"⟩

/-- Environment in which the location always exists, `find` always reports
one candidate file, and grep always answers with its binary-match
indication line (the first behaviour described by the source comment at
lines 236-238), never printing the matching line itself. -/
def envBinaryGrep : PollEnv :=
  ⟨fun _ => true, fun _ => ["000003.log"], fun _ _ => "Binary file 000003.log matches"⟩

/-- Environment in which the location always exists, `find` always reports
one candidate file, and the file contains the run identifier `deadbeef`
from iteration `t` onwards (grep reports a textual match from then on). -/
def envMatchFrom (t : Nat) : PollEnv :=
  ⟨fun _ => true, fun _ => ["completion.log"], fun i _ => if t ≤ i then "deadbeef" else ""⟩

/-! ## The Speedometer completion wait: `Speedometer.run`
(speedometer/__init__.py lines 64-75)

After a fixed 60 second sleep the loop repeatedly samples the busiest
process line of `adb shell top`; `busy k` abstracts whether the k-th `top`
call reports a `sandboxed_process` entry.  The inner `while` has no timeout
of any kind. -/

inductive RunResult where
  | done (topCalls : Nat)
  | fuelOut
deriving DecidableEq

/-- The inner `while "sandboxed_process" in busiest_line` loop: starting
from `top` call `k`, consume calls while they are busy and return the index
of the first non-busy call; `none` when the fuel runs out first. -/
def speedoInner (busy : Nat → Bool) : Nat → Nat → Option Nat
  | 0, _ => none
  | fuel + 1, k => if busy k then speedoInner busy fuel (k + 1) else some k

/-- The outer `while countdown > 0` loop of lines 67-75.  Each outer pass
samples `top` (call `k`) and runs the inner loop from it; if the inner loop
iterated at least once the countdown was reset to 5 inside it (and is then
decremented to 4), otherwise it is just decremented. -/
def speedometer_wait (busy : Nat → Bool) : Nat → Nat → Nat → RunResult
  | 0, _, _ => .fuelOut
  | fuel + 1, countdown, k =>
    if countdown = 0 then .done k
    else
      match speedoInner busy (fuel + 1) k with
      | none => .fuelOut
      | some j => speedometer_wait busy fuel (if k < j then 4 else countdown - 1) (j + 1)

/-- The Speedometer completion wait with its initial `countdown = 5`. -/
def speedometer_run_wait (busy : Nat → Bool) (fuel : Nat) : RunResult :=
  speedometer_wait busy fuel 5 0

/-! ## Content Server path translation
(`DifferentDirectoryHTTPRequestHandler.translate_path`,
jetstream/__init__.py lines 337-341)

Paths are modelled as lists of components.  `filterComponents` is the
component filtering performed by `SimpleHTTPRequestHandler.translate_path`
(dropping empty, `.` and `..` components), which then joins the remaining
components onto `os.getcwd()`; `relpathComponents` is `os.path.relpath`
(strip the longest common prefix, then one `..` per remaining component of
the start directory); the final `os.path.join(document_root, requested_uri)`
is list append. -/

def filterComponents (ws : List String) : List String :=
  ws.filter (fun w => w ≠ "" ∧ w ≠ "." ∧ w ≠ "..")

/-- `SimpleHTTPRequestHandler.translate_path`: the filtered request
components joined onto the current working directory. -/
def baseTranslatePath (cwd : List String) (words : List String) : List String :=
  cwd ++ filterComponents words

/-- Strip the longest common prefix of two component lists, returning the
two remainders. -/
def commonStrip : List String → List String → List String × List String
  | a :: as, b :: bs => if a = b then commonStrip as bs else (a :: as, b :: bs)
  | as, bs => (as, bs)

/-- `os.path.relpath(p, start)` on component lists. -/
def relpathComponents (p start : List String) : List String :=
  (commonStrip p start).2.map (fun _ => "..") ++ (commonStrip p start).1

/-- Lines 337-341: rebase the base-class translation of the request onto
`document_root`:
`path = SimpleHTTPRequestHandler.translate_path(self, path)`,
`requested_uri = os.path.relpath(path, os.getcwd())`,
`return os.path.join(document_root, requested_uri)`. -/
def translate_path (document_root cwd : List String) (words : List String) : List String :=
  document_root ++ relpathComponents (baseTranslatePath cwd words) cwd

/-! ## ArchiveServer lifecycle (jetstream/__init__.py lines 349-373)

`stop` (lines 366-370) runs, in order: `adb_command(.. reverse --remove ..)`,
`self._httpd.shutdown()`, `self._thread.join()`.  The effects are named
after those calls; `closeSocket` stands for `HTTPServer.server_close()`,
the call that releases the listening socket (Python `shutdown()` only makes
`serve_forever` exit; it does not close the socket), which the source never
makes. -/

inductive ServerEffect where
  | bindSocket
  | startThread
  | adbReverse
  | adbReverseRemove
  | httpdShutdown
  | threadJoin
  | closeSocket
deriving DecidableEq

/-- Effects of `ArchiveServer.start` (lines 353-364), in order. -/
def archiveServerStart : List ServerEffect := [.bindSocket, .startThread, .adbReverse]

/-- Effects of `ArchiveServer.stop` (lines 366-370), in order, when the
adb reverse removal succeeds. -/
def archiveServerStop : List ServerEffect := [.adbReverseRemove, .httpdShutdown, .threadJoin]

/-- Listening-socket state after a list of effects: only `bindSocket` binds
it and only `closeSocket` releases it. -/
def socketBound (bound : Bool) (effects : List ServerEffect) : Bool :=
  effects.foldl (fun b e =>
    match e with
    | ServerEffect.bindSocket => true
    | ServerEffect.closeSocket => false
    | _ => b) bound

/-- `ArchiveServer.stop` under a possibly failing adb removal command.
`devlib.utils.android.adb_command` raises on failure and `stop` has no
handler around it (lines 366-370), so on failure the exception propagates
and the two following calls never execute.  Result: (effects executed,
propagated error). -/
def archiveServerStopExec (removeOk : Bool) : List ServerEffect × Option String :=
  if removeOk then (archiveServerStop, none)
  else ([], some "adb reverse remove failed")

/-- `Speedometer.teardown` (speedometer/__init__.py lines 77-79):
`subprocess.check_output(adb reverse --remove ..)` raises
`CalledProcessError` on failure and there is no handler. -/
def speedometerTeardownExec (removeOk : Bool) : List ServerEffect × Option String :=
  if removeOk then ([ServerEffect.adbReverseRemove], none)
  else ([], some "CalledProcessError")

/-! ## Score extraction retry loops

`Jetstream.update_output` (jetstream/__init__.py lines 276-299) loops:
read a score; on success report the metric and stop; on `None`, raise if
`iterations >= 10`, otherwise sleep 2 seconds, increment `iterations`, and
retry.  `readScore i` abstracts the result of `self.read_score()` on the
attempt with `iterations = i` (the counters coincide because `iterations`
is incremented after every failed attempt).  Scores are kept abstract in a
type `α` (the source converts the matched text with `float`).
`Speedometer.update_output` (speedometer/__init__.py lines 81-95) performs
a single attempt and raises immediately on no match. -/

inductive ExtractResult (α : Type) where
  | metric (score : α) (sleeps : Nat)
  | exhausted (sleeps : Nat)
  | fuelOut
deriving DecidableEq

/-- The `while not score_read` loop of lines 281-299; `metric s i` reports
the metric found on the attempt with `iterations = i` (after `i` sleeps of
2 seconds each); `exhausted i` is the `WorkloadError` raise with
`iterations = i`. -/
def jetstreamUpdateGo {α : Type} (readScore : Nat → Option α) : Nat → Nat → ExtractResult α
  | 0, _ => .fuelOut
  | fuel + 1, iterations =>
    match readScore iterations with
    | some s => .metric s iterations
    | none =>
      if 10 ≤ iterations then .exhausted iterations
      else jetstreamUpdateGo readScore fuel (iterations + 1)

/-- `Jetstream.update_output` starting from `iterations = 0`; fuel 11
covers the maximum of 11 attempts (`iterations` = 0..10). -/
def jetstream_update_output {α : Type} (readScore : Nat → Option α) : ExtractResult α :=
  jetstreamUpdateGo readScore 11 0

/-- `Speedometer.update_output` lines 87-95: one attempt, metric on a match
and an immediate `WorkloadError` raise otherwise; no sleep, no retry. -/
def speedometer_update_output {α : Type} (readScore : Option α) : ExtractResult α :=
  match readScore with
  | some s => .metric s 0
  | none => .exhausted 0

/-- A score source whose first ten attempts find nothing and whose eleventh
attempt finds 42. -/
def scoreAfterTen : Nat → Option Nat := fun i => if i < 10 then none else some 42

/-! ## The score regexes

`Speedometer.regex` (speedometer/__init__.py line 30) is
`text="(\d+.\d+)" resource-id="result-number"` and `Jetstream.regex`
(jetstream/__init__.py line 83) is
`node index="0" text="(\d+.\d+)" resource-id=""`.  Both have the shape
PRE (\d+.\d+) SUF with literal PRE and SUF, an unescaped dot (any
character), and one capture group.  `regexSearch` implements `re.search`
for exactly this shape: leftmost starting position wins, and at a position
each `\d+` is greedy with backtracking.  It returns the text captured by
group 1 (which `read_score` then converts with `float`). -/

/-- All ways to split off a nonempty digit run at the head of `cs`,
longest (greedy) first: pairs (digit run, remaining input). -/
def digitSplits (cs : List Char) : List (List Char × List Char) :=
  let ds := cs.takeWhile Char.isDigit
  let rest := cs.drop ds.length
  (List.range ds.length).map (fun j => (ds.take (ds.length - j), ds.drop (ds.length - j) ++ rest))

/-- First `some` produced by `f` over a list, in order (backtracking
preference order). -/
def firstSome {α β : Type} (f : α → Option β) : List α → Option β
  | [] => none
  | a :: as =>
    match f a with
    | some b => some b
    | none => firstSome f as

/-- Match `(\d+.\d+)SUF` at the start of `cs`, returning the capture. -/
def matchNumSuffix (suffix : List Char) (cs : List Char) : Option (List Char) :=
  firstSome (fun d1p =>
    match d1p.2 with
    | [] => none
    | c :: rest2 =>
      firstSome (fun d2p =>
        if suffix.isPrefixOf d2p.2 then some (d1p.1 ++ c :: d2p.1) else none)
        (digitSplits rest2))
    (digitSplits cs)

/-- Try the pattern at every start position, leftmost first (both regexes
have a nonempty literal PRE, so the end-of-input position cannot match). -/
def searchFrom (pre suf : List Char) : List Char → Option (List Char)
  | [] => none
  | c :: cs =>
    match (if pre.isPrefixOf (c :: cs) then matchNumSuffix suf (List.drop pre.length (c :: cs)) else none) with
    | some g => some g
    | none => searchFrom pre suf cs

/-- `re.search` for a `PRE(\d+.\d+)SUF` pattern over a dump, returning the
group-1 capture. -/
def regexSearch (pre suf dump : String) : Option String :=
  (searchFrom pre.data suf.data dump.data).map (fun g => String.mk g)

/-- One extraction attempt of `Speedometer.update_output` (lines 87-90):
search the UI dump with `Speedometer.regex` and return the capture. -/
def speedometer_read_score (dump : String) : Option String :=
  regexSearch "text=\"" "\" resource-id=\"result-number\"" dump

/-- One extraction attempt of `Jetstream.read_score` (lines 261-274):
search the UI dump with `Jetstream.regex` and return the capture. -/
def jetstream_read_score (dump : String) : Option String :=
  regexSearch "node index=\"0\" text=\"" "\" resource-id=\"\"" dump

/-- The snapshot snippet named by the specification. -/
def uiDumpSnippet : String := "text=\"123.45\" resource-id=\"result-number\""

/-- A concrete UI dump containing the snippet. -/
def uiDump : String := "<node index=\"0\" text=\"123.45\" resource-id=\"result-number\"/>"

/-! ## Helper lemmas about the Completion Poller -/

/-- With fuel at least `T + 1 - iter` and the invariant `sleeps = iter`,
the poller never exhausts its fuel and performs at most `T` sleeps. -/
theorem pollGo_total (env : PollEnv) (rid : String) (sleepP findP T : Nat) :
    ∀ fuel iter seen cand, iter ≤ T → T + 1 ≤ fuel + iter →
      pollGo env rid sleepP findP T fuel iter seen cand iter ≠ .fuelOut ∧
      (pollGo env rid sleepP findP T fuel iter seen cand iter).sleepCount ≤ T := by
  intro fuel
  induction fuel with
  | zero => intro iter seen cand h1 h2; omega
  | succ n ih =>
    intro iter seen cand h1 h2
    cases hfe : env.fileExists iter with
    | true =>
      by_cases ht : T < iter + 1
      · simp [pollGo, hfe, ht, PollResult.sleepCount]
        omega
      · by_cases hc : scanCandidates env rid iter (refreshCand env sleepP findP iter seen cand) = true
        · simp [pollGo, hfe, ht, hc, PollResult.sleepCount]
          omega
        · simp only [Bool.not_eq_true] at hc
          simp [pollGo, hfe, ht, hc]
          exact ih (iter + 1) true _ (by omega) (by omega)
    | false =>
      by_cases ht : T < iter + 1
      · simp [pollGo, hfe, ht, PollResult.sleepCount]
        omega
      · simp [pollGo, hfe, ht]
        exact ih (iter + 1) seen cand (by omega) (by omega)

/-- If the storage location never exists on any reachable iteration, the
poller runs to the timeout raise with `local_storage_seen` and
`benchmark_complete` both still false, after exactly `T` sleeps. -/
theorem pollGo_neverSeen (env : PollEnv) (rid : String) (sleepP findP T : Nat)
    (hfe : ∀ i, i ≤ T → env.fileExists i = false) :
    ∀ fuel iter cand, iter ≤ T → T + 1 ≤ fuel + iter →
      pollGo env rid sleepP findP T fuel iter false cand iter = .timeout false false T := by
  intro fuel
  induction fuel with
  | zero => intro iter cand h1 h2; omega
  | succ n ih =>
    intro iter cand h1 h2
    have hf := hfe iter h1
    by_cases ht : T < iter + 1
    · have hiT : iter = T := by omega
      subst hiT
      simp [pollGo, hf, ht]
    · simp [pollGo, hf, ht]
      exact ih (iter + 1) cand (by omega) (by omega)

/-- Once `local_storage_seen` is true it stays true, so the never-observed
timeout variant can no longer be produced. -/
theorem pollGo_seen_stays (env : PollEnv) (rid : String) (sleepP findP T : Nat) :
    ∀ fuel iter cand sleeps fl n,
      pollGo env rid sleepP findP T fuel iter true cand sleeps ≠ .timeout false fl n := by
  intro fuel
  induction fuel with
  | zero => intro iter cand sleeps fl n; simp [pollGo]
  | succ m ih =>
    intro iter cand sleeps fl n
    cases hfe : env.fileExists iter with
    | true =>
      by_cases ht : T < iter + 1
      · simp [pollGo, hfe, ht]
      · by_cases hc : scanCandidates env rid iter (refreshCand env sleepP findP iter true cand) = true
        · simp [pollGo, hfe, ht, hc]
        · simp only [Bool.not_eq_true] at hc
          simp [pollGo, hfe, ht, hc]
          exact ih (iter + 1) _ (sleeps + 1) fl n
    | false =>
      by_cases ht : T < iter + 1
      · simp [pollGo, hfe, ht]
      · simp [pollGo, hfe, ht]
        exact ih (iter + 1) cand (sleeps + 1) fl n

/-- If the storage location exists on some iteration `j` that every
non-completing run reaches (`j ≤ T`), the never-observed timeout variant is
impossible from any earlier state. -/
theorem pollGo_seenAt (env : PollEnv) (rid : String) (sleepP findP T : Nat)
    (j : Nat) (hj : j ≤ T) (hjt : env.fileExists j = true) :
    ∀ fuel iter seen cand sleeps, iter ≤ j →
      ∀ fl n, pollGo env rid sleepP findP T fuel iter seen cand sleeps ≠ .timeout false fl n := by
  intro fuel
  induction fuel with
  | zero => intro iter seen cand sleeps hij fl n; simp [pollGo]
  | succ m ih =>
    intro iter seen cand sleeps hij fl n
    by_cases heq : iter = j
    · subst heq
      by_cases ht : T < iter + 1
      · simp [pollGo, hjt, ht]
      · by_cases hc : scanCandidates env rid iter (refreshCand env sleepP findP iter seen cand) = true
        · simp [pollGo, hjt, ht, hc]
        · simp only [Bool.not_eq_true] at hc
          simp [pollGo, hjt, ht, hc]
          exact pollGo_seen_stays env rid sleepP findP T m (iter + 1) _ (sleeps + 1) fl n
    · have hlt : iter < j := lt_of_le_of_ne hij heq
      have ht : ¬ (T < iter + 1) := by omega
      cases hfe : env.fileExists iter with
      | true =>
        by_cases hc : scanCandidates env rid iter (refreshCand env sleepP findP iter seen cand) = true
        · simp [pollGo, hfe, ht, hc]
        · simp only [Bool.not_eq_true] at hc
          simp [pollGo, hfe, ht, hc]
          exact pollGo_seen_stays env rid sleepP findP T m (iter + 1) _ (sleeps + 1) fl n
      | false =>
        simp [pollGo, hfe, ht]
        exact ih (iter + 1) seen cand (sleeps + 1) (by omega) fl n

/-- If from iteration `t` onwards the location exists, `find` reports a
file `f`, and the grep output for `f` contains the identifier textually,
then from any state with `iter ≤ i0` — where `i0` is a rescan iteration
(multiple of `30 / 5 = 6`) at or after `t` — the loop sets
`benchmark_complete` by iteration `i0` at the latest, returning either
success or (only possible at `i0 = 180`) the timeout with the flag set. -/
theorem pollGo_matchBy (env : PollEnv) (rid f : String) (t i0 : Nat)
    (H : ∀ i, t ≤ i → env.fileExists i = true ∧ f ∈ env.findFiles i ∧
         strContains rid (env.grepOutput i f) = true)
    (h0 : t ≤ i0) (hmod : i0 % 6 = 0) (hT : i0 ≤ 180) :
    ∀ fuel iter seen cand, iter ≤ i0 → i0 + 1 ≤ fuel + iter →
      ∃ i s, i ≤ i0 ∧
        (pollGo env rid 5 30 180 fuel iter seen cand iter = .complete (i + 1) ∨
         pollGo env rid 5 30 180 fuel iter seen cand iter = .timeout s true i) := by
  intro fuel
  induction fuel with
  | zero => intro iter seen cand h1 h2; omega
  | succ n ih =>
    intro iter seen cand h1 h2
    by_cases heq : iter = i0
    · subst heq
      obtain ⟨hfe, hmem, hgrep⟩ := H iter h0
      have hrc : refreshCand env 5 30 iter seen cand = env.findFiles iter := by
        simp [refreshCand, hmod]
      have hc : scanCandidates env rid iter (refreshCand env 5 30 iter seen cand) = true := by
        rw [hrc]
        simp only [scanCandidates, List.any_eq_true]
        exact ⟨f, hmem, by simp [scanMatch, hgrep]⟩
      by_cases ht : (180 : Nat) < iter + 1
      · refine ⟨iter, true, le_refl _, Or.inr ?_⟩
        simp [pollGo, hfe, ht, hc]
      · refine ⟨iter, true, le_refl _, Or.inl ?_⟩
        simp [pollGo, hfe, ht, hc]
    · have hlt : iter < i0 := lt_of_le_of_ne h1 heq
      have ht : ¬ ((180 : Nat) < iter + 1) := by omega
      cases hfe : env.fileExists iter with
      | true =>
        by_cases hc : scanCandidates env rid iter (refreshCand env 5 30 iter seen cand) = true
        · refine ⟨iter, true, by omega, Or.inl ?_⟩
          simp [pollGo, hfe, ht, hc]
        · simp only [Bool.not_eq_true] at hc
          obtain ⟨i, sn, hi, hres⟩ :=
            ih (iter + 1) true (refreshCand env 5 30 iter seen cand) (by omega) (by omega)
          refine ⟨i, sn, hi, ?_⟩
          simpa [pollGo, hfe, ht, hc] using hres
      | false =>
        obtain ⟨i, sn, hi, hres⟩ := ih (iter + 1) seen cand (by omega) (by omega)
        refine ⟨i, sn, hi, ?_⟩
        simpa [pollGo, hfe, ht] using hres

/-- In `envMatchFrom t` the first match happens on iteration `t` exactly:
if `t < 180` the loop returns success after one further sleep (`t + 1`
sleeps in total), and if `t = 180` the timeout check, which runs after the
scan and before the sleep, overrides the detected completion. -/
theorem pollGo_matchFrom (t : Nat) (ht180 : t ≤ 180) :
    ∀ fuel iter seen cand, iter ≤ t → t + 1 ≤ fuel + iter →
      (iter = 0 ∨ cand = ["completion.log"]) →
      pollGo (envMatchFrom t) "deadbeef" 5 30 180 fuel iter seen cand iter =
        if t < 180 then .complete (t + 1) else .timeout true true t := by
  intro fuel
  induction fuel with
  | zero => intro iter seen cand h1 h2 hc; omega
  | succ n ih =>
    intro iter seen cand h1 h2 hcand
    have hrc : refreshCand (envMatchFrom t) 5 30 iter seen cand = ["completion.log"] := by
      rcases hcand with h0 | hl
      · subst h0; simp [refreshCand, envMatchFrom]
      · subst hl; simp [refreshCand, envMatchFrom]
    by_cases heq : iter = t
    · subst heq
      have hg : (envMatchFrom iter).grepOutput iter "completion.log" = "deadbeef" := by
        show (if iter ≤ iter then "deadbeef" else "") = "deadbeef"
        rw [if_pos (le_refl iter)]
      have hsc : scanCandidates (envMatchFrom iter) "deadbeef" iter
          (refreshCand (envMatchFrom iter) 5 30 iter seen cand) = true := by
        rw [hrc]
        simp only [scanCandidates, List.any_cons, List.any_nil, hg, Bool.or_false]
        decide
      have hfet : (envMatchFrom iter).fileExists iter = true := rfl
      by_cases htt : (180 : Nat) < iter + 1
      · rw [if_neg (by omega)]
        have hit : iter = 180 := by omega
        simp [pollGo, hfet, htt, hsc]
      · rw [if_pos (by omega)]
        simp [pollGo, hfet, htt, hsc]
    · have hlt : iter < t := lt_of_le_of_ne h1 heq
      have htt : ¬ ((180 : Nat) < iter + 1) := by omega
      have hg : (envMatchFrom t).grepOutput iter "completion.log" = "" := by
        show (if t ≤ iter then "deadbeef" else "") = ""
        rw [if_neg (by omega)]
      have hsc : scanCandidates (envMatchFrom t) "deadbeef" iter ["completion.log"] = false := by
        simp only [scanCandidates, List.any_cons, List.any_nil, hg, Bool.or_false]
        decide
      have hfet : (envMatchFrom t).fileExists iter = true := rfl
      have hrec := ih (iter + 1) true ["completion.log"] (by omega) (by omega) (Or.inr rfl)
      rw [← hrec]
      simp [pollGo, hfet, htt, hsc, hrc]

/-- If no grep output ever passes the line-245 test while the storage
location always exists, the poller times out with `local_storage_seen`
true and `benchmark_complete` still false. -/
theorem pollGo_noMatch (env : PollEnv) (rid : String)
    (hm : ∀ i l, scanCandidates env rid i l = false)
    (hfe : ∀ i, env.fileExists i = true) :
    ∀ fuel iter seen cand, iter ≤ 180 → 181 ≤ fuel + iter →
      pollGo env rid 5 30 180 fuel iter seen cand iter = .timeout true false 180 := by
  intro fuel
  induction fuel with
  | zero => intro iter seen cand h1 h2; omega
  | succ n ih =>
    intro iter seen cand h1 h2
    by_cases ht : (180 : Nat) < iter + 1
    · have hit : iter = 180 := by omega
      subst hit
      simp [pollGo, hfe 180, ht, hm]
    · simp [pollGo, hfe iter, ht, hm]
      exact ih (iter + 1) true _ (by omega) (by omega)

/-- `wait_for_benchmark_to_complete` unfolded at the source constants. -/
theorem wait_eq_pollGo (env : PollEnv) (rid : String) :
    wait_for_benchmark_to_complete env rid = pollGo env rid 5 30 180 181 0 false [] 0 := rfl

/-! ## Helper lemmas about the Speedometer wait -/

/-- If every `top` sample is busy the inner loop consumes all its fuel. -/
theorem speedoInner_alwaysBusy : ∀ fuel k, speedoInner (fun _ => true) fuel k = none := by
  intro fuel
  induction fuel with
  | zero => intro k; rfl
  | succ n ih => intro k; simp only [speedoInner, if_true]; exact ih (k + 1)

/-- If every `top` sample is busy the Speedometer wait exhausts any amount
of fuel: no finite number of loop steps completes it. -/
theorem speedometer_wait_alwaysBusy :
    ∀ fuel countdown k, countdown ≠ 0 →
      speedometer_wait (fun _ => true) fuel countdown k = .fuelOut := by
  intro fuel
  cases fuel with
  | zero => intro c k h; rfl
  | succ n => intro c k h; simp [speedometer_wait, h, speedoInner_alwaysBusy]

/-! ## Helper lemmas about path translation -/

theorem commonStrip_append (cwd : List String) :
    ∀ f, commonStrip (cwd ++ f) cwd = (f, []) := by
  induction cwd with
  | nil => intro f; cases f <;> simp [commonStrip]
  | cons a as ih => intro f; simp [commonStrip, ih]

theorem relpathComponents_append (cwd f : List String) :
    relpathComponents (cwd ++ f) cwd = f := by
  simp [relpathComponents, commonStrip_append]

/-! ## Helper lemmas about the Jetstream extraction retry loop -/

/-- If every attempt up to `iterations = 10` returns no score, the loop
raises with `iterations = 10`, i.e. after its 11th failed attempt. -/
theorem jetstreamUpdateGo_allNone {α : Type} (readScore : Nat → Option α) :
    ∀ fuel iter, (∀ i, iter ≤ i → i ≤ 10 → readScore i = none) → iter ≤ 10 →
      11 ≤ fuel + iter → jetstreamUpdateGo readScore fuel iter = .exhausted 10 := by
  intro fuel
  induction fuel with
  | zero => intro iter h h1 h2; omega
  | succ n ih =>
    intro iter h h1 h2
    have hn := h iter (le_refl iter) h1
    by_cases h10 : 10 ≤ iter
    · have hit : iter = 10 := by omega
      subst hit
      simp [jetstreamUpdateGo, hn, h10]
    · simp [jetstreamUpdateGo, hn, h10]
      exact ih (iter + 1) (fun i hi1 hi2 => h i (by omega) hi2) (by omega) (by omega)

/-- If the first attempt that finds a score is the one with
`iterations = k ≤ 10`, the loop reports that score and never raises. -/
theorem jetstreamUpdateGo_firstSome {α : Type} (readScore : Nat → Option α) (k : Nat) (s : α)
    (hk : k ≤ 10) (hnone : ∀ i, i < k → readScore i = none) (hsome : readScore k = some s) :
    ∀ fuel iter, iter ≤ k → 11 ≤ fuel + iter →
      jetstreamUpdateGo readScore fuel iter = .metric s k := by
  intro fuel
  induction fuel with
  | zero => intro iter h1 h2; omega
  | succ n ih =>
    intro iter h1 h2
    by_cases heq : iter = k
    · subst heq
      simp [jetstreamUpdateGo, hsome]
    · have hlt : iter < k := lt_of_le_of_ne h1 heq
      have hn := hnone iter hlt
      have h10 : ¬ (10 ≤ iter) := by omega
      simp [jetstreamUpdateGo, hn, h10]
      exact ih (iter + 1) (by omega) (by omega)

/-! ## The claims -/

/-- C1: the source intends (comment, lines 236-238) to accept the binary
match indication `Binary file <path> matches`, but line 245 tests the
un-formatted literal `Binary file \x7b\x7d matches`, so a real binary-match
line does not set `benchmark_complete`; only the literal placeholder text
would.  Consequently, in an environment where grep always answers with its
binary-match line for the matching candidate file, the poller never
completes and times out after 15 minutes with the flag still false. -/
theorem c1_binary_match_indication_not_detected :
    scanMatch "deadbeef"
      "Binary file /data/data/com.android.chrome/app_chrome/Default/Local Storage/leveldb/000003.log matches" = false ∧
    scanMatch "deadbeef" "Binary file \x7b\x7d matches" = true ∧
    wait_for_benchmark_to_complete envBinaryGrep "deadbeef" = .timeout true false 180 := by
  refine ⟨by decide, by decide, ?_⟩
  rw [wait_eq_pollGo]
  refine pollGo_noMatch envBinaryGrep "deadbeef" ?_ (fun i => rfl) 181 0 false [] (by omega) (by omega)
  intro i l
  simp only [scanCandidates]
  rw [List.any_eq_false]
  intro f hf
  show ¬ (scanMatch "deadbeef" "Binary file 000003.log matches" = true)
  decide

/-- C2 (counterexample): the Speedometer completion wait (speedometer run,
lines 64-75) does not terminate within any bound when every `top` sample
reports a `sandboxed_process` entry — here it fails to finish within
100000 loop steps (each step sleeps at least 2 seconds, far beyond any
`timeout_period + sleep_period` budget), refuting the claim that no
execution of the completion wait loops forever. -/
theorem c2_counterexample :
    speedometer_run_wait (fun _ => true) 100000 = .fuelOut :=
  speedometer_wait_alwaysBusy 100000 5 0 (by omega)

/-- C2 (amended): the Jetstream poller, for all parameters with
`sleep_period > 0` and `rescan_period` a positive whole multiple of
`sleep_period`, terminates (success or timeout; fuel exhaustion is
impossible) with total sleep time at most `timeout_period + sleep_period`;
the Speedometer completion wait, by contrast, has no timeout and an
execution in which every `top` sample is busy never terminates. -/
theorem c2_jetstream_bounded_speedometer_unbounded (env : PollEnv) (rid : String)
    (sleepP findP timeoutM : Nat)
    (_h1 : 0 < sleepP) (_h2 : sleepP ∣ findP) (_h3 : 0 < findP) :
    (pollLoop env rid sleepP findP timeoutM ≠ .fuelOut ∧
     (pollLoop env rid sleepP findP timeoutM).sleepCount * sleepP ≤ timeoutM * 60 + sleepP) ∧
    (∀ fuel, speedometer_run_wait (fun _ => true) fuel = .fuelOut) := by
  constructor
  · have h := pollGo_total env rid sleepP findP (timeoutIters sleepP timeoutM)
      (timeoutIters sleepP timeoutM + 1) 0 false [] (Nat.zero_le _) (by omega)
    refine ⟨h.1, ?_⟩
    calc (pollLoop env rid sleepP findP timeoutM).sleepCount * sleepP
        ≤ timeoutIters sleepP timeoutM * sleepP := Nat.mul_le_mul_right _ h.2
      _ ≤ timeoutM * 60 := Nat.div_mul_le_self _ _
      _ ≤ timeoutM * 60 + sleepP := Nat.le_add_right _ _
  · intro fuel
    exact speedometer_wait_alwaysBusy fuel 5 0 (by omega)

/-- C2 (witness): the Jetstream part of the amended claim evaluated at the
source constants over a concrete environment. -/
theorem c2_witness :
    pollLoop envNeverSeen "x" 5 30 15 ≠ .fuelOut ∧
    (pollLoop envNeverSeen "x" 5 30 15).sleepCount * 5 ≤ 15 * 60 + 5 :=
  (c2_jetstream_bounded_speedometer_unbounded envNeverSeen "x" 5 30 15
    (by decide) ⟨6, rfl⟩ (by decide)).1

/-- C3: if the local-storage location never exists during any iteration the
poller can reach, the timeout carries `seen = false` (the message
`Local Storage was not found`, lines 253-256); and if the location exists
on any reachable iteration, the `seen = false` variant is impossible, so a
timeout is reported with the other message (line 257). -/
theorem c3_timeout_variant_selection (env : PollEnv) (rid : String) :
    ((∀ i, i ≤ 180 → env.fileExists i = false) →
        wait_for_benchmark_to_complete env rid = .timeout false false 180) ∧
    (∀ j, j ≤ 180 → env.fileExists j = true →
        ∀ fl n, wait_for_benchmark_to_complete env rid ≠ .timeout false fl n) := by
  constructor
  · intro h
    rw [wait_eq_pollGo]
    exact pollGo_neverSeen env rid 5 30 180 h 181 0 [] (by omega) (by omega)
  · intro j hj hfe fl n
    rw [wait_eq_pollGo]
    exact pollGo_seenAt env rid 5 30 180 j hj hfe 181 0 false [] 0 (by omega) fl n

/-- C3 (witness): in the environment where the location never exists, the
poller produces exactly the never-observed timeout variant. -/
theorem c3_witness :
    wait_for_benchmark_to_complete envNeverSeen "deadbeef" = .timeout false false 180 :=
  (c3_timeout_variant_selection envNeverSeen "deadbeef").1 (fun _ _ => rfl)

/-- C4: if from some iteration `t ≤ 180` onwards the location exists, the
`find` enumeration reports a candidate file `f`, and the grep output for
`f` contains the run identifier textually, then `benchmark_complete`
becomes true on some iteration `i ≤ t + 5`: either the poller returns
success after `i + 1` sleeps, or (only possible when `i = 180`) it raises
the timeout with the flag already set.  In wall-clock terms the flag is set
within `rescan_period + sleep_period = 30 + 5` seconds of sleeping past the
point `t`, because candidates are re-enumerated at the latest on the next
iteration divisible by `rescan_period / sleep_period = 6`. -/
theorem c4_detection_within_rescan_plus_sleep (env : PollEnv) (rid f : String) (t : Nat)
    (ht : t ≤ 180)
    (H : ∀ i, t ≤ i → env.fileExists i = true ∧ f ∈ env.findFiles i ∧
         strContains rid (env.grepOutput i f) = true) :
    ∃ i s, i ≤ t + 5 ∧
      (wait_for_benchmark_to_complete env rid = .complete (i + 1) ∨
       wait_for_benchmark_to_complete env rid = .timeout s true i) ∧
      i * 5 ≤ t * 5 + 30 + 5 := by
  have hmod : (6 * ((t + 5) / 6)) % 6 = 0 := Nat.mul_mod_right 6 _
  have h0 : t ≤ 6 * ((t + 5) / 6) := by omega
  have hT : 6 * ((t + 5) / 6) ≤ 180 := by omega
  have hle : 6 * ((t + 5) / 6) ≤ t + 5 := by omega
  obtain ⟨i, s1, hi, hres⟩ := pollGo_matchBy env rid f t (6 * ((t + 5) / 6)) H h0 hmod hT
    181 0 false [] (by omega) (by omega)
  refine ⟨i, s1, by omega, ?_, by omega⟩
  rw [wait_eq_pollGo]
  exact hres

/-- C4 (witness): with a textual grep match available from iteration 0 the
poller completes within the stated bound. -/
theorem c4_witness :
    ∃ i s, i ≤ 0 + 5 ∧
      (wait_for_benchmark_to_complete envAlwaysMatch "deadbeef" = .complete (i + 1) ∨
       wait_for_benchmark_to_complete envAlwaysMatch "deadbeef" = .timeout s true i) ∧
      i * 5 ≤ 0 * 5 + 30 + 5 :=
  c4_detection_within_rescan_plus_sleep envAlwaysMatch "deadbeef" "f" 0 (by decide)
    (fun i _ => ⟨rfl, List.mem_singleton.mpr rfl, rfl⟩)

/-- C5 (counterexample): after the effects of `ArchiveServer.stop` the
listening socket bound by `start` is still bound — `stop` never performs
the socket-releasing call (`server_close`), so the claim that the port is
released when stop returns is false. -/
theorem c5_counterexample :
    ¬ (socketBound true archiveServerStop = false) := by decide

/-- C5 (amended): `ArchiveServer.stop` does signal the serving loop to exit
(`shutdown`) and join the background thread before returning, but it never
closes the listening socket, so the previously bound port remains bound
when stop returns (it is only released when the process exits or the
server object is finalized). -/
theorem c5_stop_quiesces_but_socket_stays_bound :
    ServerEffect.httpdShutdown ∈ archiveServerStop ∧
    ServerEffect.threadJoin ∈ archiveServerStop ∧
    ServerEffect.closeSocket ∉ archiveServerStop ∧
    socketBound true archiveServerStop = true := by decide

/-- C6 (counterexample): when the adb reverse removal fails, the exception
propagates out of `ArchiveServer.stop` (it is not swallowed) and the
serving loop is never signalled to stop — refuting the claim that the
failure is swallowed and the remaining teardown steps still run. -/
theorem c6_counterexample :
    (archiveServerStopExec false).2.isSome = true ∧
    ServerEffect.httpdShutdown ∉ (archiveServerStopExec false).1 := by decide

/-- C6 (amended): a failure of the port-mapping removal command is neither
caught nor logged: the exception propagates out of `ArchiveServer.stop`
(and likewise out of `Speedometer.teardown`), and it prevents the
subsequent `shutdown` and `join` calls from running; only when the removal
succeeds does stop perform its full effect sequence. -/
theorem c6_remove_failure_aborts_teardown :
    ((archiveServerStopExec false).2 = some "adb reverse remove failed" ∧
     ServerEffect.httpdShutdown ∉ (archiveServerStopExec false).1 ∧
     ServerEffect.threadJoin ∉ (archiveServerStopExec false).1) ∧
    (speedometerTeardownExec false).2.isSome = true ∧
    (archiveServerStopExec true).1 = archiveServerStop := by decide

/-- C7: `translate_path` maps any request onto the serving root for every
value of the current working directory: the result is always
`document_root ++ <filtered request components>`, with the working
directory cancelled exactly by the `relpath` step; in particular a request
for `/x/y.html` with root `/tmp/abc` resolves to `/tmp/abc/x/y.html`
whatever the working directory is. -/
theorem c7_translate_path_rebases_onto_root :
    (∀ document_root cwd words,
      translate_path document_root cwd words = document_root ++ filterComponents words) ∧
    (∀ cwd, translate_path ["tmp", "abc"] cwd ["x", "y.html"] = ["tmp", "abc", "x", "y.html"]) := by
  have hmain : ∀ document_root cwd words,
      translate_path document_root cwd words = document_root ++ filterComponents words := by
    intro r cwd words
    simp [translate_path, baseTranslatePath, relpathComponents_append]
  refine ⟨hmain, fun cwd => ?_⟩
  rw [hmain]
  rfl

/-- C8 (counterexample): a score source that fails on its first ten
attempts and succeeds on the eleventh: ten attempts have been made with no
match, yet the Jetstream extractor does not raise — it makes an eleventh
attempt and reports the metric, refuting raise-iff-10-attempts. -/
theorem c8_counterexample :
    (List.range 10).all (fun i => (scoreAfterTen i).isNone) = true ∧
    jetstream_update_output scoreAfterTen = .metric 42 10 := by decide

/-- C8 (amended): the Jetstream extractor treats a per-attempt no-match as
`None` and retries with a fixed 2-second delay; it raises the
extraction-exhausted error iff all 11 attempts (`iterations` 0 through 10:
the initial attempt plus 10 retries) find no match, and an attempt that
finds a score reports the metric and never raises.  The Speedometer
extractor performs a single attempt with no retry and no delay: it reports
on a match and raises immediately otherwise. -/
theorem c8_retry_budget_eleven_attempts (readScore : Nat → Option Nat) :
    (jetstream_update_output readScore = .exhausted 10 ↔ ∀ i, i ≤ 10 → readScore i = none) ∧
    (∀ k s, k ≤ 10 → (∀ i, i < k → readScore i = none) → readScore k = some s →
      jetstream_update_output readScore = .metric s k) ∧
    (∀ s : Nat, speedometer_update_output (some s) = .metric s 0) ∧
    speedometer_update_output (none : Option Nat) = .exhausted 0 := by
  refine ⟨⟨?_, ?_⟩, ?_, fun s => rfl, rfl⟩
  · intro hres
    by_contra hnot
    push_neg at hnot
    obtain ⟨i0, hi0, hne⟩ := hnot
    have hex : ∃ i, i ≤ 10 ∧ readScore i ≠ none := ⟨i0, hi0, hne⟩
    have hkP := Nat.find_spec hex
    have hmin := fun m (hm : m < Nat.find hex) => Nat.find_min hex hm
    set k := Nat.find hex with hkdef
    obtain ⟨hk10, hkne⟩ := hkP
    cases hsk : readScore k with
    | none => exact hkne hsk
    | some s =>
      have hnone : ∀ i, i < k → readScore i = none := by
        intro i hi
        have hni := hmin i hi
        by_contra hcon
        exact hni ⟨by omega, hcon⟩
      have hm := jetstreamUpdateGo_firstSome readScore k s hk10 hnone hsk 11 0 (by omega) (by omega)
      rw [jetstream_update_output] at hres
      rw [hm] at hres
      cases hres
  · intro h
    exact jetstreamUpdateGo_allNone readScore 11 0 (fun i _ hi => h i hi) (by omega) (by omega)
  · intro k s hk hnone hsome
    exact jetstreamUpdateGo_firstSome readScore k s hk hnone hsome 11 0 (by omega) (by omega)

/-- C8 (witness): with no attempt ever finding a score, the Jetstream
extractor raises with `iterations = 10`, i.e. after 11 failed attempts. -/
theorem c8_witness :
    jetstream_update_output (fun _ => (none : Option Nat)) = .exhausted 10 :=
  (c8_retry_budget_eleven_attempts (fun _ => none)).1.mpr (fun _ _ => rfl)

set_option maxRecDepth 4000 in
/-- C9 (counterexample): a UI dump containing exactly the snippet named by
the specification, `text="123.45" resource-id="result-number"`, does not
match the Jetstream regex at all (it requires `node index="0"` before and
an empty `resource-id=""` after the number), so Jetstream extraction
yields no score on it, refuting the claim for each workload. -/
theorem c9_counterexample :
    strContains uiDumpSnippet uiDump = true ∧
    jetstream_read_score uiDump = none := by decide

set_option maxRecDepth 4000 in
/-- C9 (amended): on a snapshot containing
`text="123.45" resource-id="result-number"`, the Speedometer extraction
captures `123.45` (which `float` then converts); the Jetstream extraction
finds no match on that snapshot, and instead captures `123.45` from a
snapshot containing `node index="0" text="123.45" resource-id=""`. -/
theorem c9_snippet_matches_speedometer_only :
    speedometer_read_score uiDump = some "123.45" ∧
    jetstream_read_score uiDump = none ∧
    jetstream_read_score "<node index=\"0\" text=\"123.45\" resource-id=\"\"/>" = some "123.45" := by
  decide

/-- C10: every pass of the polling loop — including the one that sets
`benchmark_complete` — increments the counter, evaluates the timeout check
and, unless it raises, sleeps once more before the loop condition is
re-examined.  Concretely, in the environment whose first match is on
iteration `t`: for `t < 180` the poller returns success with `t + 1`
sleeps (one more sleep after the detecting pass), and for `t = 180` — the
pass whose incremented counter first exceeds `timeout_period/sleep_period`
— it raises the timeout failure even though `benchmark_complete` was just
set on that very pass. -/
theorem c10_timeout_precedence_and_trailing_sleep (t : Nat) (ht : t ≤ 180) :
    wait_for_benchmark_to_complete (envMatchFrom t) "deadbeef" =
      if t < 180 then .complete (t + 1) else .timeout true true t := by
  rw [wait_eq_pollGo]
  exact pollGo_matchFrom t ht 181 0 false [] (by omega) (by omega) (Or.inl rfl)

/-- C10 (witness): the match detected on iteration 180 is overridden by the
timeout raise, with the completion flag set at the moment of the raise. -/
theorem c10_witness :
    wait_for_benchmark_to_complete (envMatchFrom 180) "deadbeef" = .timeout true true 180 := by
  have h := c10_timeout_precedence_and_trailing_sleep 180 (by omega)
  simpa using h

end WorkloadAutomation
